import Mathlib

/-
Verification of the googs client library's core model: the time-control
clock engine (Clock.ComputeClock), the coordinate converter
(OriginCoordinate.ToA1Coordinate / A1Coordinate.ToOriginCoordinate), and
the status/ranking formatters, shallowly embedded from models.go.

Modelling conventions:
- Go float64 time values are modelled as exact rationals (ℚ); the engine's
  explicit epsilon comparisons (1e-7) are kept literally.
- Go int / int64 are modelled as ℤ; runes are modelled as ℤ code points.
- Fallible Go functions returning (T, error) are modelled as Option T
  (the error payloads carry no information the verified claims need).
- The wall-clock instant time.Now() is passed explicitly: `now` is the
  evaluation instant in seconds, and time.Since(x).Seconds() = now - x.
-/

namespace Googs

/-- The engine's epsilon, 1e-7, written exactly. -/
def eps : ℚ := 1 / 10000000

/-- PlayerColor constants from models.go (iota: Unknown 0, Black 1, White 2).
Go's PlayerColor is an int, so the query argument is modelled as ℤ. -/
def playerBlack : ℤ := 1

/-- White player constant, see playerBlack. -/
def playerWhite : ℤ := 2

/-- PlayerTime: per-player remaining-time snapshot (models.go). The Rengo
Value timestamp variant is not reachable by ComputeClock and is omitted. -/
structure PlayerTime where
  PeriodTime : ℚ := 0
  PeriodTimeLeft : ℚ := 0
  Periods : ℤ := 0
  ThinkingTime : ℚ := 0
  MovesLeft : ℤ := 0
  BlockTime : ℚ := 0
deriving Repr, DecidableEq, Inhabited

/-- Clock snapshot (models.go). Timestamps are rationals in seconds.
Fields not read by the verified operations (Expiration, GameID, Title,
Now, PausedSince) are omitted. -/
structure Clock where
  BlackPlayerID : ℤ := 0
  BlackTime : PlayerTime := {}
  CurrentPlayerID : ℤ := 0
  LastMove : ℚ := 0
  WhitePlayerID : ℤ := 0
  WhiteTime : PlayerTime := {}
  StartMode : Bool := false
deriving Repr, DecidableEq, Inhabited

/-- TimeControl (models.go). System is the Go string-typed ClockSystem;
the five known values are "absolute", "byoyomi", "canadian", "fischer",
"simple". -/
structure TimeControl where
  System : String := ""
  Speed : String := ""
  PauseOnWeekends : Bool := false
  TotalTime : ℚ := 0
  MainTime : ℚ := 0
  PeriodTime : ℚ := 0
  Periods : ℤ := 0
  PeriodsMax : ℤ := 0
  PeriodsMin : ℤ := 0
  StonesPerPeriod : ℤ := 0
  InitialTime : ℚ := 0
  TimeIncrement : ℚ := 0
  MaxTime : ℚ := 0
  PerMove : ℚ := 0
deriving Repr, DecidableEq, Inhabited

/-- ComputedClock (models.go): the derived, ephemeral result of a clock
query. -/
structure ComputedClock where
  System : String := ""
  MainTime : ℚ := 0
  PeriodsLeft : ℤ := 0
  PeriodTimeLeft : ℚ := 0
  MovesLeft : ℤ := 0
  BlockTimeLeft : ℚ := 0
  SuddenDeath : Bool := false
  TimedOut : Bool := false
deriving Repr, DecidableEq, Inhabited

/-- The body of Clock.ComputeClock after its player switch has selected
the queried player's PlayerTime `t` and turn flag `isTurn` (models.go,
ComputeClock). Go's cond(b, x, y) helper is if-then-else. Note: when
tc.PeriodTime = 0 the Go code divides by a zero float (giving +Inf);
here rational division by zero gives 0 - the clock theorems that touch
this division assume 0 < tc.PeriodTime. -/
def computeForPlayer (tc : TimeControl) (t : PlayerTime) (isTurn : Bool)
    (startMode : Bool) (lastMove now : ℚ) : Option ComputedClock :=
  let elapsed : ℚ := if isTurn && !startMode then now - lastMove else 0
  if tc.System = "absolute" ∨ tc.System = "fischer" then
    let mainTime := if isTurn then max 0 (t.ThinkingTime - elapsed) else t.ThinkingTime
    some { System := tc.System, MainTime := mainTime,
           SuddenDeath := decide (mainTime < 10),
           TimedOut := decide (mainTime < eps) }
  else if tc.System = "byoyomi" then
    let r : ℚ × ℤ × ℚ :=
      if isTurn then
        let mo : ℚ × ℚ :=
          if t.ThinkingTime > eps then
            let m := t.ThinkingTime - elapsed
            if m < eps then (0, -m) else (m, 0)
          else (0, elapsed)
        let periodsLeft := t.Periods
        let periodTimeLeft := t.PeriodTime
        if mo.2 > eps then
          let periodsUsed : ℤ := Rat.floor (mo.2 / tc.PeriodTime)
          let pl := periodsLeft - periodsUsed
          let pl := if pl > 0 then pl else 0
          let ptl := tc.PeriodTime - (mo.2 - (periodsUsed : ℚ) * tc.PeriodTime)
          let ptl := if ptl > eps then ptl else 0
          (mo.1, pl, ptl)
        else (mo.1, periodsLeft, periodTimeLeft)
      else (t.ThinkingTime, t.Periods, tc.PeriodTime)
    some { System := tc.System, MainTime := r.1,
           PeriodsLeft := r.2.1, PeriodTimeLeft := r.2.2,
           SuddenDeath := decide (r.2.1 ≤ 1),
           TimedOut := decide (r.1 < eps ∧ r.2.1 < 0) }
  else if tc.System = "canadian" then
    let r : ℚ × ℤ × ℚ :=
      if isTurn then
        let mo : ℚ × ℚ :=
          if t.ThinkingTime > eps then
            let m := t.ThinkingTime - elapsed
            if m < eps then (0, -m) else (m, 0)
          else (0, elapsed)
        let movesLeft := t.MovesLeft
        let blockTimeLeft := t.BlockTime
        if mo.2 > eps then
          let b := blockTimeLeft - mo.2
          (mo.1, movesLeft, if b > eps then b else 0)
        else (mo.1, movesLeft, blockTimeLeft)
      else (t.ThinkingTime, t.MovesLeft, t.BlockTime)
    some { System := tc.System, MainTime := r.1,
           MovesLeft := r.2.1, BlockTimeLeft := r.2.2,
           SuddenDeath := decide (r.1 < eps ∧ (r.2.2 < 10 ∨ r.2.1 < 2)),
           TimedOut := decide (r.1 < eps ∧ r.2.2 < eps) }
  else if tc.System = "simple" then
    let mainTime := if isTurn then max 0 (tc.PerMove - elapsed) else tc.PerMove
    some { System := tc.System, MainTime := mainTime,
           SuddenDeath := decide (mainTime < 10),
           TimedOut := decide (mainTime < eps) }
  else none

/-- Clock.ComputeClock (models.go): dispatch on the queried player, then
evaluate the per-system body. An unrecognized player yields none. -/
def Clock.ComputeClock (c : Clock) (tc : TimeControl) (player : ℤ) (now : ℚ) :
    Option ComputedClock :=
  if player = playerBlack then
    computeForPlayer tc c.BlackTime (c.CurrentPlayerID == c.BlackPlayerID)
      c.StartMode c.LastMove now
  else if player = playerWhite then
    computeForPlayer tc c.WhiteTime (c.CurrentPlayerID == c.WhitePlayerID)
      c.StartMode c.LastMove now
  else none

/-- Selector used to state clock theorems uniformly over the two
recognized players: the PlayerTime the switch in ComputeClock picks. -/
def timeOf (c : Clock) (p : ℤ) : PlayerTime :=
  if p = playerBlack then c.BlackTime else c.WhiteTime

/-- Selector for the isTurn flag the switch in ComputeClock computes. -/
def isTurnOf (c : Clock) (p : ℤ) : Bool :=
  if p = playerBlack then c.CurrentPlayerID == c.BlackPlayerID
  else if p = playerWhite then c.CurrentPlayerID == c.WhitePlayerID
  else false

/-- OriginCoordinate (models.go): zero-based board coordinate. -/
structure OriginCoordinate where
  X : ℤ
  Y : ℤ
deriving Repr, DecidableEq, Inhabited

/-- OriginCoordinate.IsPass (models.go): (-1, y) or (x, -1) is a pass. -/
def OriginCoordinate.IsPass (c : OriginCoordinate) : Bool :=
  c.X == -1 || c.Y == -1

/-- A1Coordinate (models.go): column letter (a Go rune, modelled as its
code point) and 1-based row. -/
structure A1Coordinate where
  Col : ℤ
  Row : ℤ
deriving Repr, DecidableEq, Inhabited

/-- OriginCoordinate.ToA1Coordinate (models.go). Code points: 65 is the
letter A; the column skips the letter I (code 73) by adding one more when
x is at least 8. Errors are modelled as none. -/
def OriginCoordinate.ToA1Coordinate (c : OriginCoordinate) (boardSize : ℤ) :
    Option A1Coordinate :=
  if c.X < 0 ∨ c.X ≥ boardSize ∨ c.Y < 0 ∨ c.Y ≥ boardSize then none
  else
    let col := 65 + c.X + (if c.X ≥ 8 then 1 else 0)
    some { Col := col, Row := boardSize - c.Y }

/-- A1Coordinate.ToOriginCoordinate (models.go). Code points: 97..122 are
the lowercase letters (folded to uppercase by subtracting 32), 65..72 are
A..H, 74..84 are J..T. Errors are modelled as none. -/
def A1Coordinate.ToOriginCoordinate (c : A1Coordinate) (boardSize : ℤ) :
    Option OriginCoordinate :=
  let col := if 97 ≤ c.Col ∧ c.Col ≤ 122 then c.Col - 32 else c.Col
  let x? : Option ℤ :=
    if 65 ≤ col ∧ col ≤ 72 then some (col - 65)
    else if 74 ≤ col ∧ col ≤ 84 then some (col - 65 - 1)
    else none
  match x? with
  | none => none
  | some x =>
    let y := boardSize - c.Row
    if x < 0 ∨ x ≥ boardSize ∨ y < 0 ∨ y ≥ boardSize then none
    else some { X := x, Y := y }

/-- Go fmt's %.f / %.0f verb applied to a rational: round to the nearest
integer (ties to even, as Go's correctly-rounded formatting does) and
print in decimal. -/
def roundEven (q : ℚ) : ℤ :=
  let n := Rat.floor q
  let f := q - (n : ℚ)
  if (1 : ℚ) / 2 < f then n + 1
  else if f < (1 : ℚ) / 2 then n
  else if n % 2 = 0 then n else n + 1

/-- Decimal rendering for the %.f verb, see roundEven. -/
def fmtF0 (q : ℚ) : String :=
  toString (roundEven q)

/-- Go fmt's %02.0f verb: like %.0f but zero-padded to width 2. -/
def fmtPad2 (q : ℚ) : String :=
  let s := fmtF0 q
  if s.length < 2 then "0" ++ s else s

/-- Go fmt's %q verb on a string. The claims verified here never feed it
a string containing quotes, backslashes or control characters, so the
escaping Go would apply to those is not modelled: this is plain
double-quoting. -/
def goQuote (s : String) : String :=
  "\"" ++ s ++ "\""

/-- prettyTime (models.go): decompose seconds into days/hours/minutes and
render largest-unit-first. math.Floor is Rat.floor, kept as a rational as
the Go code keeps it a float64. -/
def prettyTime (seconds : ℚ) : String :=
  let days : ℚ := (Rat.floor (seconds / 86400) : ℤ)
  let s1 := seconds - days * 86400
  let hours : ℚ := (Rat.floor (s1 / 3600) : ℤ)
  let s2 := s1 - hours * 3600
  let minutes : ℚ := (Rat.floor (s2 / 60) : ℤ)
  let s3 := s2 - minutes * 60
  if days > 0 then
    if hours > 0 then fmtF0 days ++ "d" ++ fmtF0 hours ++ "h"
    else fmtF0 (days * 24) ++ "h"
  else if hours > 0 then
    fmtF0 hours ++ "h" ++ (if minutes > 0 then fmtF0 minutes ++ "m" else "")
  else if minutes > 0 then
    fmtF0 minutes ++ ":" ++ fmtPad2 s3
  else fmtF0 s3 ++ "s"

/-- ComputedClock.String (models.go): the clock renderer. -/
def ComputedClock.String' (c : ComputedClock) : String :=
  if c.TimedOut then "Timeout"
  else if c.System = "absolute" ∨ c.System = "fischer" ∨ c.System = "simple" then
    prettyTime c.MainTime ++ (if c.SuddenDeath then " (SD)" else "")
  else if c.System = "byoyomi" then
    if c.SuddenDeath then prettyTime c.PeriodTimeLeft ++ " (SD)"
    else if c.MainTime > 0 then
      prettyTime c.MainTime ++ " +" ++ prettyTime c.PeriodTimeLeft
        ++ " (" ++ toString c.PeriodsLeft ++ ")"
    else prettyTime c.PeriodTimeLeft ++ " (" ++ toString c.PeriodsLeft ++ ")"
  else if c.System = "canadian" then
    if c.SuddenDeath then
      prettyTime c.BlockTimeLeft ++ "/" ++ toString c.MovesLeft ++ " (SD)"
    else if c.MainTime > 0 then
      prettyTime c.MainTime ++ " +" ++ prettyTime c.BlockTimeLeft
        ++ "/" ++ toString c.MovesLeft
    else prettyTime c.BlockTimeLeft ++ "/" ++ toString c.MovesLeft
  else "??:??"

/-- A1Coordinate.String (models.go): %c%d, the column rune then the row. -/
def A1Coordinate.String' (c : A1Coordinate) : String :=
  (Char.ofNat c.Col.toNat).toString ++ toString c.Row

/-- Player (models.go): basic user information inside a Game. -/
structure Player where
  ID : ℤ := 0
  Username : String := ""
  Professional : Bool := false
  Rank : ℚ := 0
  AcceptedStones : Option String := none
deriving Repr, DecidableEq, Inhabited

/-- Player.Ranking (models.go): the OGS ranking notation. math.Floor is
Rat.floor and the %.f verb is fmtF0. -/
def Player.Ranking (p : Player) : String :=
  if p.Professional then fmtF0 (p.Rank - 36) ++ "p"
  else if p.Rank ≥ 1037 then fmtF0 (p.Rank - 1036) ++ "p"
  else if p.Rank ≥ 30 then fmtF0 (p.Rank - 29) ++ "d"
  else if p.Rank ≥ 1 then fmtF0 (30 - (Rat.floor p.Rank : ℤ)) ++ "k"
  else "?"

/-- Player.String (models.go). -/
def Player.String' (p : Player) : String :=
  p.Username ++ "[" ++ p.Ranking ++ "]"

/-- Players (models.go). -/
structure Players where
  Black : Player := {}
  White : Player := {}
deriving Repr, DecidableEq, Inhabited

/-- Move (models.go): an OriginCoordinate plus the time spent on it. -/
structure Move extends OriginCoordinate where
  TimeDelta : ℚ := 0
deriving Repr, DecidableEq

/-- GameState (models.go). Phase is the Go string-typed GamePhase
("play", "stone removal", "finished"). -/
structure GameState where
  Phase : String := "play"
  MoveNumber : ℤ := 0
  LastMove : OriginCoordinate := ⟨0, 0⟩
  PlayerToMove : ℤ := 0
  Outcome : String := ""
  Board : List (List ℤ) := []
  Removal : List (List ℤ) := []
deriving Repr, DecidableEq, Inhabited

/-- Game (models.go). Only the fields the verified operations read are
modelled; PlayerPool, a Go map keyed by the decimal string of the player
ID, is an association list keyed by the ID itself. -/
structure Game where
  BlackPlayerID : ℤ := 0
  Clock : Clock := {}
  GameID : ℤ := 0
  GameName : String := ""
  Height : ℤ := 0
  Moves : List Move := []
  Outcome : String := ""
  Phase : String := "play"
  PlayerPool : List (ℤ × Player) := []
  Players : Players := {}
  WhitePlayerID : ℤ := 0
  WinnerID : ℤ := 0
deriving Repr, DecidableEq, Inhabited

/-- Lookup in the modelled PlayerPool map: a missing key yields Go's zero
Player value. -/
def poolLookup (pool : List (ℤ × Player)) (id : ℤ) : Player :=
  match pool.find? (fun kv => kv.1 == id) with
  | some kv => kv.2
  | none => {}

/-- Game.BoardSize (models.go): the height (client.Game validates that
the board is square). -/
def Game.BoardSize (g : Game) : ℤ :=
  g.Height

/-- Game.IsMyGame (models.go). -/
def Game.IsMyGame (g : Game) (myUserID : ℤ) : Bool :=
  (poolLookup g.PlayerPool myUserID).ID == myUserID

/-- Game.BlackPlayerTitle (models.go). -/
def Game.BlackPlayerTitle (g : Game) : String :=
  "(B) " ++ g.Players.Black.String'

/-- Game.WhitePlayerTitle (models.go). -/
def Game.WhitePlayerTitle (g : Game) : String :=
  "(W) " ++ g.Players.White.String'

/-- Game.String (models.go): %d %q %s vs %s, %d moves, %s to play. -/
def Game.String' (g : Game) : String :=
  let whoseTurn := if g.Clock.CurrentPlayerID == g.Players.Black.ID
    then "Black" else "White"
  toString g.GameID ++ " " ++ goQuote g.GameName ++ " "
    ++ g.BlackPlayerTitle ++ " vs " ++ g.WhitePlayerTitle ++ ", "
    ++ toString g.Moves.length ++ " moves, " ++ whoseTurn ++ " to play"

/-- Game.Result (models.go). -/
def Game.Result (g : Game) : String :=
  if g.Phase ≠ "finished" then ""
  else
    (if g.WinnerID == g.BlackPlayerID then g.BlackPlayerTitle
     else g.WhitePlayerTitle) ++ " won by " ++ g.Outcome

/-- Game.Status (models.go). The Go parameter is a *GameState pointer,
modelled as Option GameState. The ignored conversion error in the
non-pass branch leaves a nil pointer, which Go's fmt renders in some
nil form; that branch is modelled with a "<nil>" placeholder (no
verified claim depends on it). -/
def Game.Status (g : Game) (state : Option GameState) (myUserID : ℤ) : String :=
  match state with
  | none => g.String' ++ " (unknown board state)"
  | some st =>
    if st.MoveNumber = 0 then
      "Game ready, " ++ g.BlackPlayerTitle ++ " to start"
    else if st.Phase = "finished" then
      "Game has finished, " ++ g.Result
    else
      let turn := if g.IsMyGame myUserID then
          (if st.PlayerToMove == myUserID then "your" else "opponent's")
        else
          (if st.PlayerToMove == g.BlackPlayerID then "Black's" else "White's")
      let whoPlayed := if g.IsMyGame myUserID then
          (if st.PlayerToMove == myUserID then "Opponent" else "You")
        else
          (if st.PlayerToMove == g.BlackPlayerID then "White" else "Black")
      if st.LastMove.IsPass then
        toString st.MoveNumber ++ " moves. " ++ whoPlayed ++ " passed, "
          ++ turn ++ " turn"
      else
        let a1 := match st.LastMove.ToA1Coordinate g.BoardSize with
          | some a => a.String'
          | none => "<nil>"
        toString st.MoveNumber ++ " moves. " ++ whoPlayed ++ " played "
          ++ a1 ++ ", " ++ turn ++ " turn"

/-- Concrete byoyomi snapshot for the spec's worked example: black on
turn, main time exhausted, one 30-second period left. -/
def c1clock : Clock where
  BlackPlayerID := 1
  CurrentPlayerID := 1
  LastMove := 0
  BlackTime := { ThinkingTime := 0, Periods := 1, PeriodTime := 30 }

/-- Byoyomi time control with 30-second periods. -/
def c1tc : TimeControl where
  System := "byoyomi"
  PeriodTime := 30

/-- Concrete byoyomi snapshot where black is off turn and the snapshot's
period-time-left (10) differs from the configured period length (30). -/
def c3clock : Clock where
  BlackPlayerID := 1
  WhitePlayerID := 2
  CurrentPlayerID := 2
  BlackTime := { ThinkingTime := 60, Periods := 3, PeriodTime := 10, PeriodTimeLeft := 10 }

/-- Byoyomi time control with 30-second periods (off-turn example). -/
def c3tc : TimeControl where
  System := "byoyomi"
  PeriodTime := 30

/-- Concrete absolute-clock snapshot: black on turn with 40 seconds of
thinking time, snapshot taken at instant 0. -/
def c4clock : Clock where
  BlackPlayerID := 1
  CurrentPlayerID := 1
  LastMove := 0
  BlackTime := { ThinkingTime := 40 }

/-- Absolute time control. -/
def c4tc : TimeControl where
  System := "absolute"

/-- Concrete canadian snapshot: black off turn with a thinking time of
1e-8 seconds (below the engine's 1e-7 epsilon) and an empty block. -/
def c5clock : Clock where
  BlackPlayerID := 1
  WhitePlayerID := 2
  CurrentPlayerID := 2
  BlackTime := { ThinkingTime := 1 / 100000000, BlockTime := 0, MovesLeft := 5 }

/-- Canadian time control. -/
def c5tc : TimeControl where
  System := "canadian"

/-- Concrete snapshot with black off turn (white to move), used to check
that off-turn queries are independent of the evaluation instant. -/
def c7clock : Clock where
  BlackPlayerID := 1
  WhitePlayerID := 2
  CurrentPlayerID := 2
  LastMove := 100
  BlackTime := { ThinkingTime := 40 }

/-- Fischer time control for the off-turn independence example. -/
def c7tc : TimeControl where
  System := "fischer"

/-- Concrete game whose player pool contains the viewing user (ID 5). -/
def c8game : Game where
  BlackPlayerID := 1
  WhitePlayerID := 2
  GameID := 77
  GameName := "g"
  Height := 9
  PlayerPool := [(5, { ID := 5 })]

/-- Concrete state whose last move is the pass sentinel (-1, -1), with
the viewing user (ID 5) to move. -/
def c8state : GameState where
  Phase := "play"
  MoveNumber := 3
  LastMove := ⟨-1, -1⟩
  PlayerToMove := 5

/-- Concrete byoyomi snapshot with a non-negative period count, black on
turn deep into overtime. -/
def c10clock : Clock where
  BlackPlayerID := 1
  CurrentPlayerID := 1
  LastMove := 0
  BlackTime := { ThinkingTime := 0, Periods := 2, PeriodTime := 30 }

/-- Byoyomi time control for the no-timeout example. -/
def c10tc : TimeControl where
  System := "byoyomi"
  PeriodTime := 30

theorem computeClock_eq_forPlayer (c : Clock) (tc : TimeControl) (p : ℤ)
    (now : ℚ) (hp : p = playerBlack ∨ p = playerWhite) :
    c.ComputeClock tc p now =
      computeForPlayer tc (timeOf c p) (isTurnOf c p) c.StartMode c.LastMove now := by
  rcases hp with h | h <;> subst h <;>
    simp [Clock.ComputeClock, timeOf, isTurnOf, playerBlack, playerWhite]

theorem ite_pos_eq_max (a : ℤ) : (if a > 0 then a else 0) = max 0 a := by
  rw [Int.max_def]; split_ifs <;> omega

theorem append_ne_timeout (a b : String) (hb : b.data.getLast? = some ')') :
    a ++ b ≠ "Timeout" := by
  intro h
  have hd : (a ++ b).data = "Timeout".data := congrArg String.data h
  cases a with
  | mk la =>
    cases b with
    | mk lb =>
      have hd2 : la ++ lb = "Timeout".data := hd
      have hne : lb ≠ [] := by
        intro hnil
        rw [hnil] at hb
        simp at hb
      have h1 : (la ++ lb).getLast? = some ')' := by
        rw [List.getLast?_append_of_ne_nil la hne]
        exact hb
      rw [hd2] at h1
      exact absurd h1 (by decide)

theorem forPlayer_none_iff (tc : TimeControl) (t : PlayerTime) (isTurn sm : Bool)
    (lm now : ℚ) :
    computeForPlayer tc t isTurn sm lm now = none ↔
      (tc.System ≠ "absolute" ∧ tc.System ≠ "byoyomi"
       ∧ tc.System ≠ "canadian" ∧ tc.System ≠ "fischer" ∧ tc.System ≠ "simple") := by
  by_cases hA : tc.System = "absolute" ∨ tc.System = "fischer"
  · rcases hA with h | h <;> simp [computeForPlayer, h]
  · push_neg at hA
    by_cases hB : tc.System = "byoyomi"
    · simp [computeForPlayer, hB]
    · by_cases hC : tc.System = "canadian"
      · simp [computeForPlayer, hC]
      · by_cases hD : tc.System = "simple"
        · simp [computeForPlayer, hD]
        · simp [computeForPlayer, hA.1, hA.2, hB, hC, hD]

/-- C2 (amended): for every board size with 0 < boardSize ≤ 25 and every
coordinate (x, y) with 0 ≤ x, y < boardSize whose column stays within the
letters A..T, i.e. x ≤ 18, the two conversions are exact inverses;
converting (x, y) to A1 and back yields exactly (x, y). (For x ≥ 19 the
A1-to-origin direction rejects the column letter, see the
counterexample.) -/
theorem coordinate_roundtrip (boardSize x y : ℤ) (h1 : 0 < boardSize)
    (h2 : boardSize ≤ 25) (h3 : 0 ≤ x) (h4 : x < boardSize) (h5 : x ≤ 18)
    (h6 : 0 ≤ y) (h7 : y < boardSize) :
    (OriginCoordinate.ToA1Coordinate ⟨x, y⟩ boardSize).bind
      (fun a => a.ToOriginCoordinate boardSize) = some ⟨x, y⟩ := by
  simp only [OriginCoordinate.ToA1Coordinate]
  rw [if_neg (by omega)]
  simp only [Option.some_bind, A1Coordinate.ToOriginCoordinate]
  split_ifs <;> simp_all <;> omega

/-- C2 counterexample: on a 20x20 board (within the claimed bound of 25)
the coordinate (19, 0) converts to A1 (column U) but converting back
fails, so the two conversions are not inverses for the full claimed
range. -/
theorem coordinate_roundtrip_counterexample :
    (0 : ℤ) < 20 ∧ (20 : ℤ) ≤ 25 ∧ (0 : ℤ) ≤ 19 ∧ (19 : ℤ) < 20
    ∧ (OriginCoordinate.ToA1Coordinate ⟨19, 0⟩ 20).isSome = true
    ∧ (OriginCoordinate.ToA1Coordinate ⟨19, 0⟩ 20).bind
        (fun a => a.ToOriginCoordinate 20) = none := by
  refine ⟨by norm_num, by norm_num, by norm_num, by norm_num, ?_, ?_⟩
  · simp [OriginCoordinate.ToA1Coordinate]
  · simp [OriginCoordinate.ToA1Coordinate, A1Coordinate.ToOriginCoordinate]

/-- C2 witness: the round trip at board size 19 and coordinate (18, 0),
the largest column the conversion pair supports. -/
theorem coordinate_roundtrip_witness :
    (0 : ℤ) < 19 ∧ (19 : ℤ) ≤ 25 ∧ (0 : ℤ) ≤ 18 ∧ (18 : ℤ) < 19
    ∧ (OriginCoordinate.ToA1Coordinate ⟨18, 0⟩ 19).bind
        (fun a => a.ToOriginCoordinate 19) = some ⟨18, 0⟩ :=
  ⟨by norm_num, by norm_num, by norm_num, by norm_num,
   coordinate_roundtrip 19 18 0 (by norm_num) (by norm_num) (by norm_num)
     (by norm_num) (by norm_num) (by norm_num) (by norm_num)⟩

/-- C6: ComputeClock returns none exactly when the queried player is
neither black (1) nor white (2) or the configured System is none of the
five known disciplines; in every other case it returns a value, for
every snapshot, config and instant (the embedding is total, so no
failure mode beyond the none result exists). -/
theorem computeClock_none_iff (c : Clock) (tc : TimeControl) (p : ℤ) (now : ℚ) :
    c.ComputeClock tc p now = none ↔
      (¬(p = playerBlack ∨ p = playerWhite))
      ∨ (tc.System ≠ "absolute" ∧ tc.System ≠ "byoyomi"
         ∧ tc.System ≠ "canadian" ∧ tc.System ≠ "fischer" ∧ tc.System ≠ "simple") := by
  by_cases hp : p = playerBlack ∨ p = playerWhite
  · rw [computeClock_eq_forPlayer c tc p now hp, forPlayer_none_iff]
    simp [hp]
  · push_neg at hp
    simp [Clock.ComputeClock, hp.1, hp.2, hp]

/-- C7: whenever the queried player is not the turn holder, or the game
is still in start mode, ComputeClock yields identical results at any two
evaluation instants; determinism itself holds because the embedding
makes the evaluation instant an explicit argument of a pure function. -/
theorem computeClock_now_independent (c : Clock) (tc : TimeControl) (p : ℤ)
    (now1 now2 : ℚ)
    (h : isTurnOf c p = false ∨ c.StartMode = true) :
    c.ComputeClock tc p now1 = c.ComputeClock tc p now2 := by
  by_cases hp : p = playerBlack ∨ p = playerWhite
  · rw [computeClock_eq_forPlayer c tc p now1 hp,
        computeClock_eq_forPlayer c tc p now2 hp]
    rcases h with h | h <;> simp [computeForPlayer, h]
  · push_neg at hp
    simp [Clock.ComputeClock, hp.1, hp.2]

/-- C7 witness: an off-turn fischer query gives the same result at
instants 100 and 9999. -/
theorem computeClock_now_independent_witness :
    isTurnOf c7clock playerBlack = false
    ∧ c7clock.ComputeClock c7tc playerBlack 100
      = c7clock.ComputeClock c7tc playerBlack 9999 :=
  ⟨by decide,
   computeClock_now_independent c7clock c7tc playerBlack 100 9999
     (Or.inl (by decide))⟩

/-- C3 (amended): for a byoyomi query with the queried player off turn,
ComputeClock reports the snapshot's periods count unchanged and mainTime
equal to the snapshot's thinking time, with no depletion, but the
period-time-left it reports is the configured full period length
(tc.PeriodTime), not the snapshot's period-time-left. -/
theorem byoyomi_off_turn_spec (c : Clock) (tc : TimeControl) (p : ℤ) (now : ℚ)
    (hp : p = playerBlack ∨ p = playerWhite)
    (hsys : tc.System = "byoyomi")
    (ht : isTurnOf c p = false) :
    c.ComputeClock tc p now = some
      { System := "byoyomi",
        MainTime := (timeOf c p).ThinkingTime,
        PeriodsLeft := (timeOf c p).Periods,
        PeriodTimeLeft := tc.PeriodTime,
        SuddenDeath := decide ((timeOf c p).Periods ≤ 1),
        TimedOut := decide ((timeOf c p).ThinkingTime < eps
          ∧ (timeOf c p).Periods < 0) } := by
  rw [computeClock_eq_forPlayer c tc p now hp, ht]
  simp [computeForPlayer, hsys]

/-- C3 counterexample: off turn with snapshot period-time-left 10 and
configured period length 30, ComputeClock reports period-time-left 30,
not the snapshot's 10, so the claim as stated fails. -/
theorem byoyomi_off_turn_counterexample :
    (c3clock.ComputeClock c3tc playerBlack 0).map ComputedClock.PeriodTimeLeft
      = some 30
    ∧ c3clock.BlackTime.PeriodTimeLeft = 10
    ∧ c3clock.BlackTime.PeriodTime = 10
    ∧ (30 : ℚ) ≠ 10 := by
  refine ⟨?_, rfl, rfl, by norm_num⟩
  simp [Clock.ComputeClock, computeForPlayer, c3clock, c3tc, playerBlack, playerWhite]

/-- C3 witness: the off-turn byoyomi query on the concrete snapshot,
with every field of the result evaluated. -/
theorem byoyomi_off_turn_spec_witness :
    isTurnOf c3clock playerBlack = false
    ∧ c3clock.ComputeClock c3tc playerBlack 0 = some
      { System := "byoyomi", MainTime := 60, PeriodsLeft := 3,
        PeriodTimeLeft := 30, MovesLeft := 0, BlockTimeLeft := 0,
        SuddenDeath := false, TimedOut := false } := by
  refine ⟨by decide, ?_⟩
  have h := byoyomi_off_turn_spec c3clock c3tc playerBlack 0
    (Or.inl rfl) rfl (by decide)
  rw [h]
  norm_num [timeOf, c3clock, c3tc, playerBlack, eps]

/-- C4: for the absolute and fischer systems ComputeClock returns
mainTime = max(0, thinkingTime - elapsed) on turn (elapsed being 0 while
in start mode) and mainTime = thinkingTime off turn, with SuddenDeath
exactly when mainTime < 10 seconds and TimedOut exactly when mainTime
is below the 1e-7 epsilon; concretely, on turn with 40s thinking time,
10s elapsed gives mainTime 30 with both flags false and 35s elapsed
gives mainTime 5 with SuddenDeath true. -/
theorem absolute_fischer_spec (c : Clock) (tc : TimeControl) (p : ℤ) (now : ℚ)
    (hp : p = playerBlack ∨ p = playerWhite)
    (hsys : tc.System = "absolute" ∨ tc.System = "fischer") :
    (c.ComputeClock tc p now = some
      { System := tc.System,
        MainTime := if isTurnOf c p
          then max 0 ((timeOf c p).ThinkingTime -
            (if isTurnOf c p && !c.StartMode then now - c.LastMove else 0))
          else (timeOf c p).ThinkingTime,
        SuddenDeath := decide ((if isTurnOf c p
          then max 0 ((timeOf c p).ThinkingTime -
            (if isTurnOf c p && !c.StartMode then now - c.LastMove else 0))
          else (timeOf c p).ThinkingTime) < 10),
        TimedOut := decide ((if isTurnOf c p
          then max 0 ((timeOf c p).ThinkingTime -
            (if isTurnOf c p && !c.StartMode then now - c.LastMove else 0))
          else (timeOf c p).ThinkingTime) < eps) })
    ∧ (c4clock.ComputeClock c4tc playerBlack 10).map
        (fun cc => (cc.MainTime, cc.SuddenDeath, cc.TimedOut))
        = some (30, false, false)
    ∧ (c4clock.ComputeClock c4tc playerBlack 35).map
        (fun cc => (cc.MainTime, cc.SuddenDeath, cc.TimedOut))
        = some (5, true, false) := by
  refine ⟨?_, ?_, ?_⟩
  · rw [computeClock_eq_forPlayer c tc p now hp]
    rcases hsys with h | h <;> simp [computeForPlayer, h]
  · simp only [Clock.ComputeClock, computeForPlayer, c4clock, c4tc, eps, playerBlack]
    norm_num [eps]
  · simp only [Clock.ComputeClock, computeForPlayer, c4clock, c4tc, eps, playerBlack]
    norm_num [eps]

/-- C4 witness: the on-turn absolute query at instant 10, every field of
the result evaluated. -/
theorem absolute_fischer_spec_witness :
    c4clock.ComputeClock c4tc playerBlack 10 = some
      { System := "absolute", MainTime := 30, PeriodsLeft := 0,
        PeriodTimeLeft := 0, MovesLeft := 0, BlockTimeLeft := 0,
        SuddenDeath := false, TimedOut := false } := by
  have h := (absolute_fischer_spec c4clock c4tc playerBlack 10
    (Or.inl rfl) (Or.inl rfl)).1
  rw [h]
  norm_num [timeOf, isTurnOf, c4clock, c4tc, playerBlack, eps]

/-- C1 (amended): for a byoyomi query with the queried player on turn
and the game out of start mode, with elapsed = now - snapshot instant,
main time is treated as exhausted when thinkingTime ≤ 1e-7 (overtime is
then the full elapsed); otherwise mainTime = thinkingTime - elapsed,
zeroed when below 1e-7 with its negation carried as overtime. Periods
deplete only when overtime exceeds 1e-7: periodsUsed =
floor(overTime / periodLength), periodsLeft = max(0, snapshotPeriods -
periodsUsed), and periodTimeLeft = periodLength - (overTime -
periodsUsed * periodLength), zeroed when it is at most 1e-7 (rather than
the claimed max with 0). SuddenDeath = (periodsLeft ≤ 1) and TimedOut =
(mainTime ≤ 0 AND periodsLeft < 0) hold as claimed. The worked example
(thinkingTime 0, one 30s period, elapsed 45s) yields periodsLeft 0 and
periodTimeLeft 15. -/
theorem byoyomi_on_turn_spec (c : Clock) (tc : TimeControl) (p : ℤ)
    (now tt el ov : ℚ) (pu : ℤ)
    (hp : p = playerBlack ∨ p = playerWhite)
    (hsys : tc.System = "byoyomi")
    (ht : isTurnOf c p = true) (hsm : c.StartMode = false)
    (hpt : 0 < tc.PeriodTime)
    (htt : tt = (timeOf c p).ThinkingTime)
    (hel : el = now - c.LastMove)
    (hov : ov = if eps < tt then (if tt - el < eps then -(tt - el) else 0) else el)
    (hpu : pu = Rat.floor (ov / tc.PeriodTime)) :
    (c.ComputeClock tc p now = some
      { System := "byoyomi",
        MainTime := if eps < tt then (if tt - el < eps then 0 else tt - el) else 0,
        PeriodsLeft := if eps < ov then max 0 ((timeOf c p).Periods - pu)
          else (timeOf c p).Periods,
        PeriodTimeLeft := if eps < ov
          then (if eps < tc.PeriodTime - (ov - (pu : ℚ) * tc.PeriodTime)
                then tc.PeriodTime - (ov - (pu : ℚ) * tc.PeriodTime) else 0)
          else (timeOf c p).PeriodTime,
        SuddenDeath := decide ((if eps < ov then max 0 ((timeOf c p).Periods - pu)
          else (timeOf c p).Periods) ≤ 1),
        TimedOut := decide
          ((if eps < tt then (if tt - el < eps then 0 else tt - el) else 0) ≤ 0
           ∧ (if eps < ov then max 0 ((timeOf c p).Periods - pu)
              else (timeOf c p).Periods) < 0) })
    ∧ (c1clock.ComputeClock c1tc playerBlack 45).map
        (fun cc => (cc.MainTime, cc.PeriodsLeft, cc.PeriodTimeLeft,
          cc.SuddenDeath, cc.TimedOut))
        = some (0, 0, 15, true, false) := by
  constructor
  · subst hpu hov hel htt
    rw [computeClock_eq_forPlayer c tc p now hp, ht, hsm]
    simp only [computeForPlayer, hsys]
    norm_num [eps]
    split_ifs <;> simp_all [ite_pos_eq_max, decide_eq_decide, eps] <;>
      first
      | rfl
      | omega
      | linarith
      | (constructor <;> rintro ⟨h1, h2⟩ <;> exact ⟨by linarith, by linarith⟩)
      | (congr 1 <;> first
          | rfl
          | exact decide_eq_decide.mpr (by constructor <;> intro <;> linarith))
  · simp only [Clock.ComputeClock, computeForPlayer, c1clock, c1tc, eps, playerBlack]
    norm_num [Rat.floor_def']
    simp

/-- C1 counterexample: with thinkingTime 0, period length 30 and elapsed
30 - 1e-8 (overtime 30 - 1e-8, periodsUsed 0), the claimed formula
periodTimeLeft = max(0, periodLength - (overTime - periodsUsed *
periodLength)) gives 1e-8, but ComputeClock clamps values at most 1e-7
to 0 and reports periodTimeLeft 0, so the claim as stated fails. -/
theorem byoyomi_on_turn_counterexample :
    (c1clock.ComputeClock c1tc playerBlack (30 - 1 / 100000000)).map
      ComputedClock.PeriodTimeLeft = some 0
    ∧ Rat.floor ((30 - 1 / 100000000) / 30) = 0
    ∧ max (0 : ℚ) (30 - ((30 - 1 / 100000000) - 0 * 30)) = 1 / 100000000
    ∧ (1 / 100000000 : ℚ) ≠ 0 := by
  refine ⟨?_, by norm_num [Rat.floor_def'], by norm_num, by norm_num⟩
  simp only [Clock.ComputeClock, computeForPlayer, c1clock, c1tc, eps, playerBlack]
  norm_num [Rat.floor_def']
  simp

/-- C1 witness: the on-turn byoyomi query of the worked example, with
every field of the result evaluated. -/
theorem byoyomi_on_turn_spec_witness :
    c1clock.ComputeClock c1tc playerBlack 45 = some
      { System := "byoyomi", MainTime := 0, PeriodsLeft := 0,
        PeriodTimeLeft := 15, MovesLeft := 0, BlockTimeLeft := 0,
        SuddenDeath := true, TimedOut := false } := by
  have h := (byoyomi_on_turn_spec c1clock c1tc playerBlack 45 0 45 45 1
    (Or.inl rfl) rfl (by decide) rfl (by norm_num [c1tc])
    (by norm_num [timeOf, c1clock, playerBlack])
    (by norm_num [c1clock])
    (by norm_num [eps])
    (by norm_num [Rat.floor_def', c1tc])).1
  rw [h]
  norm_num [timeOf, c1clock, c1tc, playerBlack, eps]

set_option maxHeartbeats 2000000 in
/-- C5 (amended): for the canadian system ComputeClock carries movesLeft
from the snapshot unchanged in both turn states; on turn, once main time
is exhausted with overtime above 1e-7, blockTimeLeft = snapshot block
time - overTime, zeroed when at most 1e-7 (rather than the claimed max
with 0); and the flags compare main time with the 1e-7 epsilon, not
with 0: SuddenDeath = (mainTime < 1e-7 AND (blockTimeLeft < 10 OR
movesLeft < 2)) and TimedOut = (mainTime < 1e-7 AND blockTimeLeft <
1e-7). -/
theorem canadian_spec (c : Clock) (tc : TimeControl) (p : ℤ)
    (now tt el ov mt btl : ℚ)
    (hp : p = playerBlack ∨ p = playerWhite)
    (hsys : tc.System = "canadian")
    (htt : tt = (timeOf c p).ThinkingTime)
    (hel : el = if isTurnOf c p && !c.StartMode then now - c.LastMove else 0)
    (hov : ov = if eps < tt then (if tt - el < eps then -(tt - el) else 0) else el)
    (hmt : mt = if isTurnOf c p = true
      then (if eps < tt then (if tt - el < eps then 0 else tt - el) else 0)
      else tt)
    (hbtl : btl = if isTurnOf c p = true
      then (if eps < ov
            then (if eps < (timeOf c p).BlockTime - ov
                  then (timeOf c p).BlockTime - ov else 0)
            else (timeOf c p).BlockTime)
      else (timeOf c p).BlockTime) :
    c.ComputeClock tc p now = some
      { System := "canadian",
        MainTime := mt,
        PeriodsLeft := 0,
        PeriodTimeLeft := 0,
        MovesLeft := (timeOf c p).MovesLeft,
        BlockTimeLeft := btl,
        SuddenDeath := decide (mt < eps ∧ (btl < 10 ∨ (timeOf c p).MovesLeft < 2)),
        TimedOut := decide (mt < eps ∧ btl < eps) } := by
  subst hbtl hmt hov hel htt
  rw [computeClock_eq_forPlayer c tc p now hp]
  cases hT : isTurnOf c p <;>
    simp only [hT, computeForPlayer, hsys] <;>
    norm_num [eps] <;>
    split_ifs <;>
    simp_all [eps]

/-- C5 counterexample: off turn with snapshot thinking time 1e-8 (below
the 1e-7 epsilon but positive) and an empty block, ComputeClock reports
TimedOut true although mainTime = 1e-8 is not at most 0, so the claimed
TimedOut = (mainTime <= 0 AND blockTimeLeft <= 0) fails. -/
theorem canadian_counterexample :
    (c5clock.ComputeClock c5tc playerBlack 0).map
      (fun cc => (cc.MainTime, cc.TimedOut)) = some (1 / 100000000, true)
    ∧ ¬((1 : ℚ) / 100000000 ≤ 0) := by
  constructor
  · simp only [Clock.ComputeClock, computeForPlayer, c5clock, c5tc, eps,
      playerBlack, playerWhite]
    norm_num
    simp
  · norm_num

/-- C5 witness: the off-turn canadian query on the concrete snapshot,
with every field of the result evaluated. -/
theorem canadian_spec_witness :
    c5clock.ComputeClock c5tc playerBlack 0 = some
      { System := "canadian", MainTime := 1 / 100000000, PeriodsLeft := 0,
        PeriodTimeLeft := 0, MovesLeft := 5, BlockTimeLeft := 0,
        SuddenDeath := true, TimedOut := true } := by
  have h := canadian_spec c5clock c5tc playerBlack 0
    (1 / 100000000) 0 0 (1 / 100000000) 0
    (Or.inl rfl) rfl
    (by norm_num [timeOf, c5clock, playerBlack])
    (by norm_num [isTurnOf, c5clock, playerBlack, playerWhite])
    (by norm_num [eps])
    (by norm_num [isTurnOf, c5clock, playerBlack, playerWhite])
    (by norm_num [isTurnOf, timeOf, c5clock, playerBlack, playerWhite])
  rw [h]
  norm_num [timeOf, c5clock, playerBlack, eps]

/-- C10: for a byoyomi query whose snapshot reports a non-negative
periods count for the queried player, ComputeClock never reports a
timeout (the TimedOut flag is false, whether on or off turn), and the
clock renderer's Timeout branch is unreachable: the rendered string is
never "Timeout". -/
theorem byoyomi_never_timed_out (c : Clock) (tc : TimeControl) (p : ℤ) (now : ℚ)
    (hp : p = playerBlack ∨ p = playerWhite)
    (hsys : tc.System = "byoyomi")
    (hper : 0 ≤ (timeOf c p).Periods) :
    (c.ComputeClock tc p now).map ComputedClock.TimedOut = some false
    ∧ ∀ cc : ComputedClock, c.ComputeClock tc p now = some cc →
        cc.String' ≠ "Timeout" := by
  rw [computeClock_eq_forPlayer c tc p now hp]
  have h1 : (computeForPlayer tc (timeOf c p) (isTurnOf c p) c.StartMode
      c.LastMove now).map ComputedClock.TimedOut = some false := by
    cases hT : isTurnOf c p <;>
      simp only [hT, computeForPlayer, hsys] <;>
      norm_num [eps] <;>
      split_ifs <;>
      simp_all [eps] <;>
      omega
  refine ⟨h1, ?_⟩
  intro cc hcc
  have hTO : cc.TimedOut = false := by
    rw [hcc] at h1
    simpa using h1
  have hSys : cc.System = "byoyomi" := by
    cases hT : isTurnOf c p <;>
      (rw [hT] at hcc
       simp only [computeForPlayer, hsys] at hcc
       simp only [if_true] at hcc
       rw [← Option.some_inj.mp hcc])
  rw [ComputedClock.String', hTO, hSys]
  simp only [Bool.false_eq_true, if_false]
  simp only [if_true]
  split_ifs <;>
    first
    | exact absurd
        (show ("byoyomi" : String) = "absolute" ∨ ("byoyomi" : String) = "fischer"
          ∨ ("byoyomi" : String) = "simple" from by assumption) (by simp)
    | exact append_ne_timeout _ " (SD)" (by decide)
    | exact append_ne_timeout _ ")" (by decide)

/-- C10 witness: the concrete on-turn byoyomi query deep in overtime
still reports TimedOut false. -/
theorem byoyomi_never_timed_out_witness :
    0 ≤ (timeOf c10clock playerBlack).Periods
    ∧ (c10clock.ComputeClock c10tc playerBlack 100).map ComputedClock.TimedOut
      = some false :=
  ⟨by decide,
   (byoyomi_never_timed_out c10clock c10tc playerBlack 100
     (Or.inl rfl) rfl (by decide)).1⟩

/-- C9: Player.Ranking renders rank 39 professional as "3p" (rank - 36),
rank 1037.1 non-professional as "1p", rank 30.0001 as "1d", rank 29.9999
as "1k" and rank 0.9999 as "?". -/
theorem ranking_examples :
    Player.Ranking { Professional := true, Rank := 39 } = "3p"
    ∧ Player.Ranking { Rank := 1037.1 } = "1p"
    ∧ Player.Ranking { Rank := 30.0001 } = "1d"
    ∧ Player.Ranking { Rank := 29.9999 } = "1k"
    ∧ Player.Ranking { Rank := 0.9999 } = "?" := by
  refine ⟨?_, ?_, ?_, ?_, ?_⟩ <;>
    simp only [Player.Ranking, fmtF0, roundEven] <;>
    norm_num [Rat.floor_def'] <;>
    rfl

/-- C8: Game.Status with an absent state snapshot returns the game line
suffixed with " (unknown board state)"; (-1, -1) is the pass sentinel;
and when the last move is a pass the status string is built from the
word "passed" with no coordinate conversion involved (the result is a
fixed format independent of the board size and of the move coordinates
beyond the pass test). The embedding is a pure function, so no input is
mutated. -/
theorem status_fallback_and_pass :
    (∀ (g : Game) (uid : ℤ), g.Status none uid = g.String' ++ " (unknown board state)")
    ∧ OriginCoordinate.IsPass ⟨-1, -1⟩ = true
    ∧ (∀ (g : Game) (st : GameState) (uid : ℤ),
        st.MoveNumber ≠ 0 → st.Phase ≠ "finished" → st.LastMove.IsPass = true →
        g.Status (some st) uid =
          toString st.MoveNumber ++ " moves. "
          ++ (if g.IsMyGame uid then (if st.PlayerToMove == uid then "Opponent" else "You")
              else (if st.PlayerToMove == g.BlackPlayerID then "White" else "Black"))
          ++ " passed, "
          ++ (if g.IsMyGame uid then (if st.PlayerToMove == uid then "your" else "opponent's")
              else (if st.PlayerToMove == g.BlackPlayerID then "Black's" else "White's"))
          ++ " turn") := by
  refine ⟨fun g uid => rfl, rfl, fun g st uid h1 h2 h3 => ?_⟩
  simp only [Game.Status]
  rw [if_neg h1, if_neg h2]
  simp only [h3, if_true]

/-- C8 witness: the concrete game and pass state, with the status string
evaluated. -/
theorem status_fallback_and_pass_witness :
    c8game.Status none 5 = c8game.String' ++ " (unknown board state)"
    ∧ ((3 : ℤ) ≠ 0 ∧ c8state.Phase ≠ "finished" ∧ c8state.LastMove.IsPass = true)
    ∧ c8game.Status (some c8state) 5 = "3 moves. Opponent passed, your turn" := by
  refine ⟨status_fallback_and_pass.1 c8game 5,
    ⟨by decide, by decide, by decide⟩, ?_⟩
  have h := status_fallback_and_pass.2.2 c8game c8state 5
    (by decide) (by decide) (by decide)
  rw [h]
  decide

end Googs
